import Mathlib

/-!
Verification of the client-side view-synchronization controller in
`static/script.js` (class `UziDatabaseApp`).

The JavaScript source is shallowly embedded: the mutable fields of the
`UziDatabaseApp` instance together with the DOM elements it mutates form a
Lean structure `AppState`; each method becomes a pure function from state to
state, paired with the list of `loadSongs` requests it issues and the list of
rendering effects it performs.  Asynchronous completion of a `loadSongs`
fetch is modelled by an explicit event semantics (`stepEvent` / `runEvents`)
over issue and completion events, since the source installs no staleness
guard and every completion callback runs to completion in issue-independent
order.
-/

/-- JavaScript truthiness-based defaulting `x || d` for an optional string:
`undefined`/`null` (here `none`) and the empty string are falsy. -/
def jsOrS (x : Option String) (d : String) : String :=
  match x with
  | none => d
  | some s => if s = "" then d else s

/-- Model of JavaScript `String.prototype.trim`: drop whitespace from both
ends.  Defined over the character list so that it evaluates by `decide`. -/
def jsTrim (s : String) : String :=
  ⟨((s.data.dropWhile Char.isWhitespace).reverse.dropWhile Char.isWhitespace).reverse⟩

/-- A song record as consumed by `displaySongs`; fields that the code guards
with `||` are optional. -/
structure Song where
  track_number : Option String
  title : String
  artist : String
  album : Option String
  duration_seconds : Option Nat
  last_updated : Option String
deriving Repr, DecidableEq

/-- The JSON body of a successful `/api/songs/...` response, as read by
`loadSongs` (`data.songs`, `data.page`, `data.total_pages`, `data.total`,
`data.search_query`). -/
structure PagedData where
  songs : List Song
  page : Nat
  total_pages : Nat
  total : Nat
  search_query : String
deriving Repr, DecidableEq

/-- The snapshot of a `loadSongs(collection, page, searchQuery)` call: the
URL is built from the collection, page, `this.perPage`, and the trimmed
search query (the `search` URL parameter is appended exactly when the trimmed
query is nonempty, so the trimmed query determines the request). -/
structure LoadRequest where
  collection : String
  page : Nat
  perPage : Nat
  search : String
deriving Repr, DecidableEq

def mkLoadRequest (collection : String) (page perPage : Nat)
    (searchQuery : String) : LoadRequest :=
  { collection := collection, page := page, perPage := perPage
    search := jsTrim searchQuery }

/-- The mutable state of the `UziDatabaseApp` instance together with the DOM
state it reads and writes: `search-input`, `search-info`, `page-info`, the
pagination buttons, the `loading` element and the `songs-tbody` markup. -/
structure AppState where
  currentCollection : String
  currentPage : Nat
  perPage : Nat
  totalPages : Nat
  currentSearchQuery : String
  searchInputValue : String
  searchInfoText : String
  pageInfoText : String
  prevDisabled : Bool
  nextDisabled : Bool
  loadingShown : Bool
  tbodyHtml : String
deriving Repr, DecidableEq

/-- The state set up by the constructor before the initial load. -/
def initialAppState : AppState :=
  { currentCollection := "current", currentPage := 1, perPage := 50
    totalPages := 1, currentSearchQuery := "", searchInputValue := ""
    searchInfoText := "", pageInfoText := "", prevDisabled := false
    nextDisabled := false, loadingShown := false, tbodyHtml := "" }

/-- The `prev-btn` click handler: decrement and reload only when
`currentPage > 1`. -/
def prevPageClick (s : AppState) : AppState × List LoadRequest :=
  if s.currentPage > 1 then
    let s1 := { s with currentPage := s.currentPage - 1 }
    (s1, [mkLoadRequest s1.currentCollection s1.currentPage s1.perPage
            s1.currentSearchQuery])
  else (s, [])

/-- The `next-btn` click handler: increment and reload only when
`currentPage < totalPages`. -/
def nextPageClick (s : AppState) : AppState × List LoadRequest :=
  if s.currentPage < s.totalPages then
    let s1 := { s with currentPage := s.currentPage + 1 }
    (s1, [mkLoadRequest s1.currentCollection s1.currentPage s1.perPage
            s1.currentSearchQuery])
  else (s, [])

/-- `switchCollection(collection)`: set the collection, reset page and search
query, clear the search input and info, and load the new collection (the
`searchQuery` parameter of `loadSongs` defaults to the empty string). -/
def switchCollection (collection : String) (s : AppState) :
    AppState × List LoadRequest :=
  let s1 := { s with currentCollection := collection, currentPage := 1
                     currentSearchQuery := "", searchInputValue := ""
                     searchInfoText := "" }
  (s1, [mkLoadRequest collection s1.currentPage s1.perPage ""])

/-- `clearSearch()`: reset the query and page, clear the search input and
info, and reload without a search parameter. -/
def clearSearch (s : AppState) : AppState × List LoadRequest :=
  let s1 := { s with currentSearchQuery := "", currentPage := 1
                     searchInputValue := "", searchInfoText := "" }
  (s1, [mkLoadRequest s1.currentCollection s1.currentPage s1.perPage ""])

/-- `performSearch()`: trim the `search-input` value, store it as the current
query, reset the page, then either reload with the query or fall back to
`clearSearch()` when the trimmed query is empty. -/
def performSearch (s : AppState) : AppState × List LoadRequest :=
  let searchQuery := jsTrim s.searchInputValue
  let s1 := { s with currentSearchQuery := searchQuery, currentPage := 1 }
  if searchQuery = "" then clearSearch s1
  else (s1, [mkLoadRequest s1.currentCollection s1.currentPage s1.perPage
               searchQuery])

/-- `updatePagination(data)`: the server-returned `page` and `total_pages`
overwrite the local fields, the page indicator is rewritten, and the buttons
are enabled or disabled from the new values.  No load is issued. -/
def updatePagination (s : AppState) (d : PagedData) :
    AppState × List LoadRequest :=
  let s1 := { s with totalPages := d.total_pages, currentPage := d.page
                     pageInfoText :=
                       "Page " ++ toString d.page ++ " of " ++
                         toString d.total_pages
                     prevDisabled := d.page ≤ 1
                     nextDisabled := d.total_pages ≤ d.page }
  (s1, [])

/-- `escapeHtml(text)` assigns `text` to a detached `div` as `textContent`
and reads back `innerHTML`; HTML text-node serialization escapes the
ampersand and the angle brackets, character by character. -/
def escapeHtmlChar (c : Char) : List Char :=
  if c = '&' then "&amp;".data
  else if c = '<' then "&lt;".data
  else if c = '>' then "&gt;".data
  else [c]

def escapeHtmlList : List Char → List Char
  | [] => []
  | c :: rest => escapeHtmlChar c ++ escapeHtmlList rest

def escapeHtml (text : String) : String :=
  ⟨escapeHtmlList text.data⟩

/-- `formatDuration(seconds)`: falsy seconds render as `0:00`; otherwise
minutes and zero-padded remaining seconds. -/
def formatDuration (seconds : Option Nat) : String :=
  match seconds with
  | none => "0:00"
  | some n =>
    if n = 0 then "0:00"
    else
      let minutes := n / 60
      let secs := n % 60
      toString minutes ++ ":" ++ (if secs < 10 then "0" else "") ++ toString secs

/-- The six table cells built for one song row by `displaySongs`: the raw
`track_number || ''`, the escaped title, artist and `album || ''`, the
formatted duration, and the raw `last_updated || 'N/A'`. -/
def songRowCells (song : Song) : List String :=
  [jsOrS song.track_number "",
   escapeHtml song.title,
   escapeHtml song.artist,
   escapeHtml (jsOrS song.album ""),
   formatDuration song.duration_seconds,
   jsOrS song.last_updated "N/A"]

def songRowHtml (song : Song) : String :=
  String.join ((songRowCells song).map (fun c => "<td>" ++ c ++ "</td>"))

def noSongsRowHtml : String :=
  "<tr><td colspan=\"6\" style=\"text-align: center; padding: 40px;\">No songs found</td></tr>"

/-- `displaySongs(songs)`: the resulting `songs-tbody` markup. -/
def songsTableHtml (songs : List Song) : String :=
  if songs.isEmpty then noSongsRowHtml
  else String.join (songs.map (fun song => "<tr>" ++ songRowHtml song ++ "</tr>"))

/-- `displayError(message)`: the `songs-tbody` markup with the message
interpolated verbatim. -/
def displayErrorHtml (message : String) : String :=
  "<tr><td colspan=\"6\" style=\"text-align: center; color: #ff6b6b; padding: 40px;\">"
    ++ message ++ "</td></tr>"

/-- `updateSearchInfo(data)`: the `search-info` text after a successful
load. -/
def searchInfoTextOf (d : PagedData) : String :=
  if d.search_query ≠ "" ∧ jsTrim d.search_query ≠ "" then
    if 0 < d.total then
      "Found " ++ toString d.total ++ " songs matching \"" ++ d.search_query ++ "\""
    else
      "No songs found matching \"" ++ d.search_query ++ "\""
  else ""

/-- The possible outcomes of the fetch inside `loadSongs`: a parsed OK
response, an OK response whose body carries a truthy `error` field, a non-OK
HTTP response (whose JSON `error` field may be absent), or a thrown
transport/parse error. -/
inductive LoadOutcome where
  | success (d : PagedData)
  | dataError (err : String)
  | httpError (err : Option String) (status : Nat) (statusText : String)
  | transportError (msg : String)
deriving Repr, DecidableEq

/-- The message of the `Error` that reaches the `catch` block of
`loadSongs`, when the outcome is a failure. -/
def failMessage : LoadOutcome → Option String
  | .success _ => none
  | .dataError e => some e
  | .httpError e status statusText =>
      some (jsOrS e ("HTTP " ++ toString status ++ ": " ++ statusText))
  | .transportError m => some m

/-- Rendering effects performed by `loadSongs` and its handlers, in program
order. -/
inductive RenderEffect where
  | setLoading (shown : Bool)
  | renderSongs (songs : List Song)
  | renderPagination (page totalPages : Nat)
  | renderSearchInfo (text : String)
  | renderError (msg : String)
  | logError (msg : String)
deriving Repr, DecidableEq

/-- The success continuation of `loadSongs`: `displaySongs`,
`updatePagination`, `updateSearchInfo` applied in order. -/
def applySuccessState (s : AppState) (d : PagedData) : AppState :=
  let s1 := { s with tbodyHtml := songsTableHtml d.songs }
  let s2 := (updatePagination s1 d).1
  { s2 with searchInfoText := searchInfoTextOf d }

/-- Everything a completed `loadSongs` fetch does after the `await` returns:
the new state, the rendering effects, and the `loadSongs` calls it makes in
turn (the source makes none — failures are never retried). -/
structure CompletionResult where
  state : AppState
  effects : List RenderEffect
  followUpLoads : List LoadRequest
deriving Repr, DecidableEq

def loadSongsFailure (s : AppState) (m : String) : CompletionResult :=
  let msg := "Failed to load songs: " ++ m
  { state := { s with tbodyHtml := displayErrorHtml msg, loadingShown := false }
    effects := [.logError ("Error loading songs: " ++ m), .renderError msg,
                .setLoading false]
    followUpLoads := [] }

def loadSongsCompletion (s : AppState) (o : LoadOutcome) : CompletionResult :=
  match o with
  | .success d =>
      { state := { applySuccessState s d with loadingShown := false }
        effects := [.renderSongs d.songs,
                    .renderPagination d.page d.total_pages,
                    .renderSearchInfo (searchInfoTextOf d),
                    .setLoading false]
        followUpLoads := [] }
  | .dataError e => loadSongsFailure s e
  | .httpError e status statusText =>
      loadSongsFailure s (jsOrS e ("HTTP " ++ toString status ++ ": " ++ statusText))
  | .transportError m => loadSongsFailure s m

/-- The synchronous prefix of `loadSongs`: `showLoading(true)` before the
fetch is dispatched. -/
def loadSongsIssue (s : AppState) : AppState × List RenderEffect :=
  ({ s with loadingShown := true }, [.setLoading true])

/-- Interleaving semantics for overlapping `loadSongs` calls.  Issue events
are numbered in order (the k-th issue gets id k, starting from 0); a
completion event names the id of the fetch that resolved.  The source code
ignores that id entirely: there is no sequence-number bookkeeping in
`loadSongs`. -/
inductive LoadEvent where
  | issue (req : LoadRequest)
  | complete (id : Nat) (outcome : LoadOutcome)
deriving Repr, DecidableEq

structure OrchState where
  app : AppState
  issued : Nat
deriving Repr, DecidableEq

def stepEvent (st : OrchState) (e : LoadEvent) : OrchState × List RenderEffect :=
  match e with
  | .issue _ =>
      let (a, effs) := loadSongsIssue st.app
      ({ app := a, issued := st.issued + 1 }, effs)
  | .complete _ o =>
      let r := loadSongsCompletion st.app o
      ({ st with app := r.state }, r.effects)

def runEvents (st : OrchState) : List LoadEvent → OrchState × List RenderEffect
  | [] => (st, [])
  | e :: rest =>
      ((runEvents (stepEvent st e).1 rest).1,
       (stepEvent st e).2 ++ (runEvents (stepEvent st e).1 rest).2)

/-- A schedule is well formed when every completion names an already-issued
fetch and no fetch completes twice. -/
def wellFormedEvents (issued : Nat) (completed : List Nat) :
    List LoadEvent → Bool
  | [] => true
  | .issue _ :: rest => wellFormedEvents (issued + 1) completed rest
  | .complete id _ :: rest =>
      decide (id < issued) && !(completed.contains id) &&
        wellFormedEvents issued (id :: completed) rest

/-- The staleness discipline claimed for the fetch orchestration: a
completion of any fetch other than the most recently issued one must produce
no observable effect at all (no render, no error surface, no loading-state
change). -/
def staleRenderFree (st : OrchState) : List LoadEvent → Bool
  | [] => true
  | e :: rest =>
      let (st1, effs) := stepEvent st e
      (match e with
       | .issue _ => true
       | .complete id _ => decide (id + 1 = st.issued) || effs.isEmpty) &&
        staleRenderFree st1 rest

/-- The JSON body of `/api/auto-update/status`, as read by
`displayAutoUpdateStatus`. -/
structure JobStatusData where
  enabled : Bool
  in_progress : Bool
  interval_minutes : Nat
  last_update : Option String
  next_update : Option String
deriving Repr, DecidableEq

/-- Outcome of one status fetch inside `updateAutoUpdateStatus`: a parsed OK
response, a non-OK response whose JSON carries an `error` field, or a thrown
transport/parse error (both failure shapes land in the same logging). -/
inductive StatusOutcome where
  | success (st : JobStatusData)
  | serverError (err : String)
  | transportError (err : String)
deriving Repr, DecidableEq

def isStatusFailure : StatusOutcome → Bool
  | .success _ => false
  | .serverError _ => true
  | .transportError _ => true

/-- Effects a status tick can perform.  `stopMonitoring` models a
`clearInterval` on the ambient timer; the source never emits it from a
tick. -/
inductive StatusEffect where
  | displayStatus (st : JobStatusData)
  | logError (msg : String)
  | stopMonitoring
deriving Repr, DecidableEq

/-- `updateAutoUpdateStatus()`: display on success; on either failure shape
the `catch`/`else` branch only logs, so the function always returns normally
and never touches the interval. -/
def updateAutoUpdateStatus : StatusOutcome → List StatusEffect
  | .success st => [.displayStatus st]
  | .serverError e => [.logError ("Error fetching auto-update status: " ++ e)]
  | .transportError e => [.logError ("Error fetching auto-update status: " ++ e)]

/-- The ambient monitoring loop set up by `startAutoUpdateMonitoring` via
`setInterval`: while the interval is active, each tick runs
`updateAutoUpdateStatus` on that tick's fetch outcome; a tick that emitted
`stopMonitoring` would cancel the interval and end the loop. -/
def runMonitor : Bool → List StatusOutcome → Bool × List (List StatusEffect)
  | false, _ => (false, [])
  | true, [] => (true, [])
  | true, o :: rest =>
      let effs := updateAutoUpdateStatus o
      if StatusEffect.stopMonitoring ∈ effs then (false, [effs])
      else ((runMonitor true rest).1, effs :: (runMonitor true rest).2)

inductive NotifKind where
  | success
  | error
deriving Repr, DecidableEq

/-- Outcome of the POST to `/api/auto-update/trigger` inside
`triggerManualUpdate`: accepted (`response.ok`), a non-OK response whose
JSON `error` field may be absent, or a thrown transport/parse error. -/
inductive TriggerResponse where
  | accepted
  | serverError (err : Option String)
  | transportError (msg : String)
deriving Repr, DecidableEq

/-- The message of the `Error` reaching the `catch` block of
`triggerManualUpdate`, when the trigger is not accepted. -/
def triggerFailureMessage : TriggerResponse → Option String
  | .accepted => none
  | .serverError e => some (jsOrS e "Failed to trigger update")
  | .transportError m => some m

/-- Effects `triggerManualUpdate` can perform, in program order.
`scheduleStatusRefresh` is the one-shot `setTimeout` of
`updateAutoUpdateStatus`; `startRepeatingPoll`, `refreshStats` and
`issueLoad` model a `setInterval`, an `updateStats()` call and a
`loadSongs` call, which the trigger workflow could make but never does. -/
inductive TriggerEffect where
  | disableButton
  | setButtonText (t : String)
  | showNotification (msg : String) (kind : NotifKind)
  | logError (msg : String)
  | scheduleStatusRefresh (delayMs : Nat)
  | startRepeatingPoll (intervalMs : Nat)
  | refreshStats
  | issueLoad (req : LoadRequest)
  | enableButton
  | restoreButtonText
deriving Repr, DecidableEq

/-- `triggerManualUpdate()`: disable the button, POST the trigger; on
acceptance show a success notification at once and schedule a single status
refresh 2000 ms later; on failure log and show an error notification; the
`finally` block re-enables the button and restores its label. -/
def triggerManualUpdate (r : TriggerResponse) : List TriggerEffect :=
  [.disableButton, .setButtonText "Triggering..."] ++
    (match triggerFailureMessage r with
     | none => [.showNotification "Update triggered successfully!" .success,
                .scheduleStatusRefresh 2000]
     | some m => [.logError ("Error triggering update: " ++ m),
                  .showNotification ("Error: " ++ m) .error]) ++
    [.enableButton, .restoreButtonText]

def isPollingStart : TriggerEffect → Bool
  | .scheduleStatusRefresh _ => true
  | .startRepeatingPoll _ => true
  | _ => false

def isStatsRefresh : TriggerEffect → Bool
  | .refreshStats => true
  | _ => false

def isViewLoad : TriggerEffect → Bool
  | .issueLoad _ => true
  | _ => false

def isRepeatingPollStart : TriggerEffect → Bool
  | .startRepeatingPoll _ => true
  | _ => false

/-- A concrete race: two pages of the same collection requested in quick
succession. -/
def raceSong1 : Song :=
  { track_number := some "1", title := "Alpha", artist := "Uzi"
    album := none, duration_seconds := some 61, last_updated := none }

def raceSong2 : Song :=
  { track_number := some "2", title := "Beta", artist := "Uzi"
    album := none, duration_seconds := some 95, last_updated := none }

def racePage2 : PagedData :=
  { songs := [raceSong1], page := 2, total_pages := 5, total := 230
    search_query := "" }

def racePage3 : PagedData :=
  { songs := [raceSong2], page := 3, total_pages := 5, total := 230
    search_query := "" }

def raceReq1 : LoadRequest := mkLoadRequest "current" 2 50 ""

def raceReq2 : LoadRequest := mkLoadRequest "current" 3 50 ""

def orch0 : OrchState := { app := initialAppState, issued := 0 }

/-- Fetch 0 and fetch 1 are issued back to back; fetch 1 (the most recently
issued) resolves first, then the superseded fetch 0 resolves. -/
def raceSchedule : List LoadEvent :=
  [.issue raceReq1, .issue raceReq2,
   .complete 1 (.success racePage3), .complete 0 (.success racePage2)]

/-! ## Theorems -/

/-- C4: for every prior state (any page, any search query),
`switchCollection(x)` sets the collection to `x`, resets the page to 1 and
the search query to the empty string, and issues exactly one load for the
new collection. -/
theorem switchCollection_resets (s : AppState) (c : String) :
    switchCollection c s =
      ({ s with currentCollection := c, currentPage := 1
                currentSearchQuery := "", searchInputValue := ""
                searchInfoText := "" },
       [mkLoadRequest c 1 s.perPage ""]) := rfl

/-- C6: applying a successful paged result overwrites `totalPages` and
`currentPage` with the server-returned values, and issues no further load. -/
theorem updatePagination_server_wins (s : AppState) (d : PagedData) :
    ((updatePagination s d).1.totalPages = d.total_pages ∧
     (updatePagination s d).1.currentPage = d.page) ∧
    (updatePagination s d).2 = [] :=
  ⟨⟨rfl, rfl⟩, rfl⟩

/-- C3: `prevPage` at page 1 and `nextPage` at the last page are complete
no-ops (state untouched, no request issued); otherwise the page moves by one
and exactly one load is issued. -/
theorem pagination_noop_or_step (s : AppState) :
    (s.currentPage = 1 → prevPageClick s = (s, [])) ∧
    (s.currentPage = s.totalPages → nextPageClick s = (s, [])) ∧
    (1 < s.currentPage →
      prevPageClick s =
        ({ s with currentPage := s.currentPage - 1 },
         [mkLoadRequest s.currentCollection (s.currentPage - 1) s.perPage
            s.currentSearchQuery])) ∧
    (s.currentPage < s.totalPages →
      nextPageClick s =
        ({ s with currentPage := s.currentPage + 1 },
         [mkLoadRequest s.currentCollection (s.currentPage + 1) s.perPage
            s.currentSearchQuery])) := by
  refine ⟨fun h => ?_, fun h => ?_, fun h => ?_, fun h => ?_⟩
  · simp [prevPageClick, h]
  · simp [nextPageClick, h]
  · simp [prevPageClick, h]
  · simp [nextPageClick, h]

/-- C3 witness: concrete no-ops at the boundaries, concrete single steps in
the interior. -/
theorem pagination_noop_or_step_w :
    prevPageClick initialAppState = (initialAppState, []) ∧
    nextPageClick initialAppState = (initialAppState, []) ∧
    prevPageClick { initialAppState with currentPage := 2, totalPages := 3 } =
      ({ initialAppState with currentPage := 1, totalPages := 3 },
       [mkLoadRequest "current" 1 50 ""]) ∧
    nextPageClick { initialAppState with currentPage := 2, totalPages := 3 } =
      ({ initialAppState with currentPage := 3, totalPages := 3 },
       [mkLoadRequest "current" 3 50 ""]) :=
  ⟨(pagination_noop_or_step initialAppState).1 rfl,
   (pagination_noop_or_step initialAppState).2.1 rfl,
   (pagination_noop_or_step _).2.2.1 (by decide),
   (pagination_noop_or_step _).2.2.2 (by decide)⟩

/-- C5: when the search input is empty after trimming, `performSearch`
produces exactly the same state and the same single load request as
`clearSearch`, from every starting state. -/
theorem performSearch_empty_eq_clearSearch (s : AppState)
    (h : jsTrim s.searchInputValue = "") :
    performSearch s = clearSearch s := by
  simp [performSearch, clearSearch, h]

/-- C5 witness: a whitespace-only input at a concrete state. -/
theorem performSearch_empty_eq_clearSearch_w :
    jsTrim "  " = "" ∧
    performSearch { initialAppState with searchInputValue := "  " } =
      clearSearch { initialAppState with searchInputValue := "  " } :=
  ⟨by decide, performSearch_empty_eq_clearSearch _ (by decide)⟩

/-- C8: every failing view load (any failure kind) renders an inline error
row with a human-readable message in the record-list area, clears the
loading indication, and issues no follow-up fetch. -/
theorem loadSongs_failure_renders_error (s : AppState) (o : LoadOutcome)
    (m : String) (h : failMessage o = some m) :
    (loadSongsCompletion s o).state.tbodyHtml =
        displayErrorHtml ("Failed to load songs: " ++ m) ∧
    (loadSongsCompletion s o).state.loadingShown = false ∧
    (loadSongsCompletion s o).effects =
        [.logError ("Error loading songs: " ++ m),
         .renderError ("Failed to load songs: " ++ m),
         .setLoading false] ∧
    (loadSongsCompletion s o).followUpLoads = [] := by
  cases o with
  | success d => simp [failMessage] at h
  | dataError e =>
      simp only [failMessage, Option.some.injEq] at h
      subst h
      simp [loadSongsCompletion, loadSongsFailure]
  | httpError e status statusText =>
      simp only [failMessage, Option.some.injEq] at h
      subst h
      simp [loadSongsCompletion, loadSongsFailure]
  | transportError msg =>
      simp only [failMessage, Option.some.injEq] at h
      subst h
      simp [loadSongsCompletion, loadSongsFailure]

/-- C8 witness: a concrete transport failure. -/
theorem loadSongs_failure_renders_error_w :
    (loadSongsCompletion initialAppState (.transportError "network down")).state.tbodyHtml =
        displayErrorHtml ("Failed to load songs: " ++ "network down") ∧
    (loadSongsCompletion initialAppState (.transportError "network down")).state.loadingShown = false ∧
    (loadSongsCompletion initialAppState (.transportError "network down")).effects =
        [.logError ("Error loading songs: " ++ "network down"),
         .renderError ("Failed to load songs: " ++ "network down"),
         .setLoading false] ∧
    (loadSongsCompletion initialAppState (.transportError "network down")).followUpLoads = [] :=
  loadSongs_failure_renders_error initialAppState (.transportError "network down")
    "network down" rfl

/-- C9: every rejected or failed manual trigger shows a transient error
notification naming the failure, re-enables the trigger button, and starts
no post-trigger polling of any kind; it is never silent. -/
theorem triggerFailure_visible_no_polling (r : TriggerResponse) (m : String)
    (h : triggerFailureMessage r = some m) :
    TriggerEffect.showNotification ("Error: " ++ m) .error ∈ triggerManualUpdate r ∧
    TriggerEffect.enableButton ∈ triggerManualUpdate r ∧
    (triggerManualUpdate r).all (fun e => !isPollingStart e) = true := by
  cases r with
  | accepted => simp [triggerFailureMessage] at h
  | serverError e =>
      simp only [triggerFailureMessage, Option.some.injEq] at h
      subst h
      refine ⟨?_, ?_, ?_⟩ <;>
        simp [triggerManualUpdate, triggerFailureMessage, isPollingStart]
  | transportError msg =>
      simp only [triggerFailureMessage, Option.some.injEq] at h
      subst h
      refine ⟨?_, ?_, ?_⟩ <;>
        simp [triggerManualUpdate, triggerFailureMessage, isPollingStart]

/-- C9 witness: the server rejects the trigger with a `locked` error. -/
theorem triggerFailure_visible_no_polling_w :
    TriggerEffect.showNotification ("Error: " ++ "locked") .error ∈
        triggerManualUpdate (.serverError (some "locked")) ∧
    TriggerEffect.enableButton ∈ triggerManualUpdate (.serverError (some "locked")) ∧
    (triggerManualUpdate (.serverError (some "locked"))).all
        (fun e => !isPollingStart e) = true :=
  triggerFailure_visible_no_polling (.serverError (some "locked")) "locked" (by decide)

theorem stopMonitoring_not_emitted (o : StatusOutcome) :
    StatusEffect.stopMonitoring ∉ updateAutoUpdateStatus o := by
  cases o <;> simp [updateAutoUpdateStatus]

/-- C7: a failing ambient status tick only logs; the loop stays alive, every
scheduled tick still runs, and a failed tick produces exactly one log entry
and nothing else. -/
theorem statusPolling_resilient (outs : List StatusOutcome) :
    (runMonitor true outs).1 = true ∧
    (runMonitor true outs).2.length = outs.length ∧
    (∀ o : StatusOutcome, isStatusFailure o = true →
      ∃ m, updateAutoUpdateStatus o = [.logError m]) := by
  refine ⟨?_, ?_, ?_⟩
  · induction outs with
    | nil => rfl
    | cons o rest ih => simp [runMonitor, stopMonitoring_not_emitted o, ih]
  · induction outs with
    | nil => rfl
    | cons o rest ih => simp [runMonitor, stopMonitoring_not_emitted o, ih]
  · intro o ho
    cases o with
    | success st => simp [isStatusFailure] at ho
    | serverError e => exact ⟨_, rfl⟩
    | transportError e => exact ⟨_, rfl⟩

/-- C7 witness: a two-tick run in which both ticks fail. -/
theorem statusPolling_resilient_w :
    (runMonitor true [StatusOutcome.serverError "boom",
                      StatusOutcome.transportError "down"]).1 = true ∧
    (runMonitor true [StatusOutcome.serverError "boom",
                      StatusOutcome.transportError "down"]).2.length = 2 ∧
    (∃ m, updateAutoUpdateStatus (.serverError "boom") = [.logError m]) :=
  ⟨(statusPolling_resilient [.serverError "boom", .transportError "down"]).1,
   (statusPolling_resilient [.serverError "boom", .transportError "down"]).2.1,
   (statusPolling_resilient [.serverError "boom", .transportError "down"]).2.2
     (.serverError "boom") rfl⟩

/-- C1 counterexample: on the well-formed schedule `raceSchedule` the
superseded fetch 0 resolves after fetch 1 and is NOT discarded — its
completion produces effects, and the record list ends up showing the stale
page 2 payload instead of the most recently issued page 3 payload.
`loadSongs` keeps no sequence number, so every completion renders. -/
theorem staleResponse_rendered :
    wellFormedEvents 0 [] raceSchedule = true ∧
    staleRenderFree orch0 raceSchedule = false ∧
    (runEvents orch0 raceSchedule).1.app.tbodyHtml =
      songsTableHtml racePage2.songs ∧
    songsTableHtml racePage2.songs ≠ songsTableHtml racePage3.songs := by
  refine ⟨rfl, rfl, rfl, ?_⟩
  decide

/-- C1 amended: completions are applied in resolution order with no
staleness check — every completed fetch renders (its effect list is never
empty), and after any schedule the record list shows the payload of the most
recently *completed* fetch, whatever its issue order. -/
theorem lastCompletionWins (st : OrchState) (evs : List LoadEvent)
    (n : Nat) (d : PagedData) :
    (stepEvent st (.complete n (.success d))).2 ≠ [] ∧
    (runEvents st (evs ++ [.complete n (.success d)])).1.app.tbodyHtml =
      songsTableHtml d.songs := by
  refine ⟨by simp [stepEvent, loadSongsCompletion], ?_⟩
  induction evs generalizing st with
  | nil => rfl
  | cons e rest ih => exact ih (stepEvent st e).1

/-- C2 counterexample: an accepted manual trigger starts no repeating poll,
never refreshes the aggregate stats, and never re-issues the current view
load — none of the effects the claimed post-trigger polling loop would
perform on termination occur anywhere in the trigger workflow. -/
theorem triggerAccepted_no_polling_loop :
    (triggerManualUpdate TriggerResponse.accepted).all
      (fun e => !(isRepeatingPollStart e || isStatsRefresh e || isViewLoad e)) =
      true := by decide

/-- C2 amended: after an accepted manual trigger the code shows the success
notification immediately and schedules exactly one status refresh 2000 ms
later; there is no repeating loop, no termination condition, no stats
refresh and no view reload. -/
theorem triggerAccepted_single_refresh :
    triggerManualUpdate TriggerResponse.accepted =
      [.disableButton, .setButtonText "Triggering...",
       .showNotification "Update triggered successfully!" .success,
       .scheduleStatusRefresh 2000, .enableButton, .restoreButtonText] := rfl

theorem lt_not_mem_escapeHtmlChar (c : Char) : '<' ∉ escapeHtmlChar c := by
  unfold escapeHtmlChar
  split_ifs with h1 h2 h3
  · decide
  · decide
  · decide
  · simp only [List.mem_singleton]
    exact fun hc => h2 hc.symm

theorem lt_not_mem_escapeHtmlList (l : List Char) : '<' ∉ escapeHtmlList l := by
  induction l with
  | nil => simp [escapeHtmlList]
  | cons c rest ih =>
      simp only [escapeHtmlList, List.mem_append]
      rintro (hc | hc)
      · exact lt_not_mem_escapeHtmlChar c hc
      · exact ih hc

/-- C10: a rendered song row escapes exactly the title, the artist and the
defaulted album through `escapeHtml`, while the defaulted track number and
last-updated fields pass through raw, as does the message interpolated by
`displayError`; and `escapeHtml` genuinely escapes — its output never
contains a raw opening angle bracket, so any input containing one is
changed. -/
theorem displaySongs_escaping (song : Song) (msg t : String) :
    songRowCells song =
      [jsOrS song.track_number "",
       escapeHtml song.title,
       escapeHtml song.artist,
       escapeHtml (jsOrS song.album ""),
       formatDuration song.duration_seconds,
       jsOrS song.last_updated "N/A"] ∧
    displayErrorHtml msg =
      "<tr><td colspan=\"6\" style=\"text-align: center; color: #ff6b6b; padding: 40px;\">"
        ++ msg ++ "</td></tr>" ∧
    '<' ∉ (escapeHtml t).data ∧
    ('<' ∈ t.data → escapeHtml t ≠ t) := by
  refine ⟨rfl, rfl, lt_not_mem_escapeHtmlList t.data, fun hm heq => ?_⟩
  exact lt_not_mem_escapeHtmlList t.data
    (by rw [show escapeHtmlList t.data = t.data from congrArg String.data heq]
        exact hm)

/-- C10 witness: a title containing markup is escaped and changed; the raw
fields and the error message pass through verbatim. -/
theorem displaySongs_escaping_w :
    ('<' ∈ ("<b>" : String).data ∧ escapeHtml "<b>" ≠ "<b>") ∧
    songRowCells { track_number := some "<1>", title := "<b>", artist := "A&B"
                   album := none, duration_seconds := some 61
                   last_updated := none } =
      [jsOrS (some "<1>") "", escapeHtml "<b>", escapeHtml "A&B",
       escapeHtml (jsOrS none ""), formatDuration (some 61), jsOrS none "N/A"] ∧
    displayErrorHtml "oops" =
      "<tr><td colspan=\"6\" style=\"text-align: center; color: #ff6b6b; padding: 40px;\">"
        ++ "oops" ++ "</td></tr>" :=
  ⟨⟨by decide,
    (displaySongs_escaping { track_number := some "<1>", title := "<b>"
                             artist := "A&B", album := none
                             duration_seconds := some 61, last_updated := none }
       "oops" "<b>").2.2.2 (by decide)⟩,
   (displaySongs_escaping { track_number := some "<1>", title := "<b>"
                            artist := "A&B", album := none
                            duration_seconds := some 61, last_updated := none }
      "oops" "<b>").1,
   (displaySongs_escaping { track_number := some "<1>", title := "<b>"
                            artist := "A&B", album := none
                            duration_seconds := some 61, last_updated := none }
      "oops" "<b>").2.1⟩
